import Mathlib

/-!
Verification development for the Gov-AI contract-discovery backend.

This file gives a shallow embedding, in Lean 4, of the core algorithms of the
repository — the matching/scoring engine (`backend/app/services/matcher.py`,
`backend/app/services/analyzer.py`), the Scout run coordinator
(`backend/app/agents/scout.py`) and the backfill coordinator
(`backend/app/agents/backfill.py`) — and proves or refutes the specification
claims about them.

Modelling conventions:
* Python strings are Lean `String`s; where the source slices or scans strings
  character-wise (`s[:4]`, `kw in s`, `s.split()`), we work on the underlying
  `List Char` (Python string indexing is per character, as is `String.data`).
  `str.lower` is modelled by `Char.toLower` (the data touched by the claims is
  ASCII).
* Python floats carry only small exact values here (multiples of 5, plus a
  clamped LLM score); scores are modelled as `ℚ`, on which all the arithmetic
  of the source (`+`, `min`, `max`, comparisons) is exact.
* Fallible I/O (HTTP adapters, the LLM) is out of scope per the spec; its
  results enter the model as explicit inputs (lists of opportunities, page
  oracles, a parsed semantic score).
-/

namespace GovAI

/-! ### Character-list string primitives

These model Python's `in` (substring test), `str.split()`, `str.strip()` and
`str.lower()` on the character level. -/

/-- Boolean test that `p` is a leading segment of `l` (`str.startswith`, used
only to build the substring test below). -/
def listStarts : List Char → List Char → Bool
  | [], _ => true
  | _ :: _, [] => false
  | a :: as, b :: bs => a == b && listStarts as bs

/-- Boolean substring test: Python's `needle in hay` on strings. -/
def listSub (needle : List Char) : List Char → Bool
  | [] => needle.isEmpty
  | c :: t => listStarts needle (c :: t) || listSub needle t

/-- Python `needle in hay` for strings, on char lists: `hay` contains `needle`
as a contiguous substring. -/
def containsSub (hay needle : List Char) : Bool := listSub needle hay

/-- Python `str.lower()` (ASCII). -/
def lowerL (l : List Char) : List Char := l.map Char.toLower

/-- Lowered character list of a string. -/
def lowerS (s : String) : List Char := lowerL s.data

/-- Helper for `wordsL`: accumulates the current word (reversed) while
scanning. -/
def wordsAux : List Char → List Char → List (List Char)
  | [], cur => if cur.isEmpty then [] else [cur.reverse]
  | c :: rest, cur =>
    if c.isWhitespace then
      if cur.isEmpty then wordsAux rest [] else cur.reverse :: wordsAux rest []
    else wordsAux rest (c :: cur)

/-- Python `str.split()` with no argument: split on whitespace runs, dropping
empty segments. -/
def wordsL (l : List Char) : List (List Char) := wordsAux l []

/-- Python `str.strip()`: drop leading and trailing whitespace. -/
def stripL (l : List Char) : List Char :=
  ((l.dropWhile Char.isWhitespace).reverse.dropWhile Char.isWhitespace).reverse

/-- Python truthiness test for an optional string field: `not x` is true for
both `None` and the empty string. -/
def optFalsy : Option String → Bool
  | none => true
  | some s => s == ""

/-! ### Data model (`backend/app/models/schemas.py`)

Only the fields consulted by the scoring and coordinator code are embedded;
display-only fields (titles, dates, descriptions, free-text explanation
strings) are elided, as no claim mentions them. -/

/-- `SetAsideType` enum from `schemas.py`. -/
inductive SetAsideType
  | TOTAL_SB | SBA_8A | HUBZONE | SDVOSB | WOSB | EDWOSB | SDB | NONE
  deriving DecidableEq

/-- The `.value` string of each `SetAsideType` member. -/
def SetAsideType.value : SetAsideType → String
  | .TOTAL_SB => "Total Small Business"
  | .SBA_8A => "8(a)"
  | .HUBZONE => "HUBZone"
  | .SDVOSB => "Service-Disabled Veteran-Owned"
  | .WOSB => "Women-Owned Small Business"
  | .EDWOSB => "Economically Disadvantaged WOSB"
  | .SDB => "Small Disadvantaged Business"
  | .NONE => "None"

/-- `CertificationType` enum from `schemas.py`. -/
inductive CertificationType
  | SB | SDB | A8 | HUBZONE | SDVOSB | VOSB | WOSB | EDWOSB
  | MINORITY_OWNED | ABILITY_ONE
  deriving DecidableEq

/-- `CERT_SET_ASIDE_KEYWORDS` table from `matcher.py`: SAM.gov set-aside
phrases for each certification. The Python dict lookup `.get(cert, [])` always
hits, since the table is total on the enum. -/
def CERT_SET_ASIDE_KEYWORDS : CertificationType → List String
  | .A8 => ["8(a)", "8a", "eight-a"]
  | .HUBZONE => ["hubzone", "hub zone"]
  | .SDVOSB => ["service-disabled veteran", "sdvosb", "sdv"]
  | .VOSB => ["veteran-owned", "vosb"]
  | .WOSB => ["women-owned", "wosb"]
  | .EDWOSB => ["economically disadvantaged", "edwosb"]
  | .SDB => ["small disadvantaged", "sdb"]
  | .SB => ["small business"]
  | .MINORITY_OWNED => ["minority"]
  | .ABILITY_ONE => ["abilityone", "ability one"]

/-- `Opportunity` (scoring-relevant fields). -/
structure Opportunity where
  notice_id : String
  department : Option String := none
  naics_code : Option String := none
  set_aside : Option String := none
  place_of_performance : Option String := none
  deriving DecidableEq

/-- `CompanyProfile` (scoring-relevant fields). -/
structure CompanyProfile where
  naics_codes : List String := []
  set_aside_types : List SetAsideType := []
  geographic_preferences : List String := []
  agency_preferences : List String := []
  deriving DecidableEq

/-- `CapabilityCluster` (scoring-relevant fields). -/
structure CapabilityCluster where
  id : String := ""
  name : String
  naics_codes : List String := []
  certifications : List CertificationType := []
  deriving DecidableEq

/-- `MatchScore` — five sub-scores plus the capped overall (the free-text
`explanation` field is elided; no claim depends on it). -/
structure MatchScore where
  overall_score : ℚ
  naics_score : ℚ
  set_aside_score : ℚ
  agency_score : ℚ
  geo_score : ℚ
  semantic_score : ℚ
  deriving DecidableEq

/-- `ScoredOpportunity` (the `ai_analysis` text field is elided). -/
structure ScoredOpportunity where
  opportunity : Opportunity
  match_score : MatchScore
  match_tier : String := "low"
  best_cluster_id : Option String := none
  best_cluster_name : Option String := none
  deriving DecidableEq

/-- The matching/scout fields of `Settings` (`core/config.py`). -/
structure Settings where
  high_match_threshold : ℚ
  medium_match_threshold : ℚ
  scout_score_threshold : ℚ
  deriving DecidableEq

/-- Default `Settings` values from `core/config.py`. -/
def defaultSettings : Settings :=
  { high_match_threshold := 70
    medium_match_threshold := 50
    scout_score_threshold := 40 }

/-! ### Matching engine (`backend/app/services/matcher.py`) -/

/-- `MatchingEngine._match_naics_codes` — NAICS tier scoring (0/10/20/30),
shared by the profile and cluster paths. The opportunity code is stripped
(`opp_naics.strip()`); `not opp_naics` is true for `None` and `""`. -/
def matchNaicsCodes (oppNaics : Option String) (profileCodes : List String) : ℚ :=
  if optFalsy oppNaics || profileCodes.isEmpty then 0
  else
    let t := stripL (oppNaics.getD "").data
    if profileCodes.any (fun code => code.data == t) then 30
    else if profileCodes.any (fun code =>
        4 ≤ code.data.length && 4 ≤ t.length && code.data.take 4 == t.take 4) then 20
    else if profileCodes.any (fun code =>
        2 ≤ code.data.length && 2 ≤ t.length && code.data.take 2 == t.take 2) then 10
    else 0

/-- `MatchingEngine._score_set_aside` — profile-path set-aside scoring
(0/15/20). -/
def scoreSetAside (opp : Opportunity) (profile : CompanyProfile) : ℚ :=
  if optFalsy opp.set_aside || profile.set_aside_types.isEmpty then 0
  else
    let oppSA := lowerS (opp.set_aside.getD "")
    if profile.set_aside_types.any (fun sa =>
        (wordsL (lowerS sa.value)).any (fun kw => containsSub oppSA kw)) then 20
    else if containsSub oppSA "small business".data &&
        0 < profile.set_aside_types.length then 15
    else 0

/-- `MatchingEngine._match_agency` — agency preference scoring (0/10), shared
by the profile and cluster paths. -/
def matchAgency (dept : Option String) (agencyPreferences : List String) : ℚ :=
  if agencyPreferences.isEmpty || optFalsy dept then 0
  else
    let oppDept := lowerS (dept.getD "")
    if agencyPreferences.any (fun pref =>
        let pl := lowerS pref
        containsSub oppDept pl || containsSub pl oppDept ||
          (let kws := (wordsL pl).filter (fun w => 3 < w.length)
           !kws.isEmpty && kws.any (fun w => containsSub oppDept w))) then 10
    else 0

/-- `MatchingEngine._match_geography` — geographic preference scoring (0/10),
shared by the profile and cluster paths. -/
def matchGeography (pop : Option String) (geoPreferences : List String) : ℚ :=
  if geoPreferences.isEmpty || optFalsy pop then 0
  else
    let p := lowerS (pop.getD "")
    if geoPreferences.any (fun g => containsSub p (lowerS g)) then 10
    else 0

/-- `MatchingEngine._score_cluster_certifications` — cluster-path set-aside
scoring (0/15/20) via the certification keyword table. -/
def scoreClusterCertifications (opp : Opportunity) (cluster : CapabilityCluster) : ℚ :=
  if optFalsy opp.set_aside || cluster.certifications.isEmpty then 0
  else
    let oppSA := lowerS (opp.set_aside.getD "")
    if cluster.certifications.any (fun cert =>
        (CERT_SET_ASIDE_KEYWORDS cert).any (fun kw => containsSub oppSA kw.data)) then 20
    else if containsSub oppSA "small business".data &&
        !cluster.certifications.isEmpty then 15
    else 0

/-- Python's two-argument `min` on numbers. (Agrees with Mathlib's `min`,
see `ratMin_eq_min`; spelled out so that concrete runs evaluate by
`decide`.) -/
def ratMin (a b : ℚ) : ℚ := if a ≤ b then a else b

/-- Python's two-argument `max` on numbers. -/
def ratMax (a b : ℚ) : ℚ := if a ≤ b then b else a

/-- `MatchingEngine._get_tier` (identical logic in `matcher.py` and
`analyzer.py`). -/
def getTier (settings : Settings) (score : ℚ) : String :=
  if settings.high_match_threshold ≤ score then "high"
  else if settings.medium_match_threshold ≤ score then "medium"
  else "low"

/-- `MatchingEngine._compute_match` — the profile-path score breakdown; the
semantic slot is the literal `0.0` placeholder. -/
def computeMatch (opp : Opportunity) (profile : CompanyProfile) : MatchScore :=
  let naics := matchNaicsCodes opp.naics_code profile.naics_codes
  let set_aside := scoreSetAside opp profile
  let agency := matchAgency opp.department profile.agency_preferences
  let geo := matchGeography opp.place_of_performance profile.geographic_preferences
  let semantic : ℚ := 0
  let overall := naics + set_aside + agency + geo + semantic
  { overall_score := ratMin overall 100
    naics_score := naics
    set_aside_score := set_aside
    agency_score := agency
    geo_score := geo
    semantic_score := semantic }

/-- `MatchingEngine._compute_cluster_match` — the cluster-path score
breakdown; agency/geo use the shared profile-level preferences. -/
def computeClusterMatch (opp : Opportunity) (cluster : CapabilityCluster)
    (agencyPreferences geoPreferences : List String) : MatchScore :=
  let naics := matchNaicsCodes opp.naics_code cluster.naics_codes
  let set_aside := scoreClusterCertifications opp cluster
  let agency := matchAgency opp.department agencyPreferences
  let geo := matchGeography opp.place_of_performance geoPreferences
  let overall := naics + set_aside + agency + geo
  { overall_score := ratMin overall 100
    naics_score := naics
    set_aside_score := set_aside
    agency_score := agency
    geo_score := geo
    semantic_score := 0 }

/-- Descending-by-`overall_score` comparator used by both ranking entry
points (`scored.sort(key=..., reverse=True)`; Python's sort is stable, as is
`List.mergeSort`). -/
def byOverallDesc (a b : ScoredOpportunity) : Bool :=
  b.match_score.overall_score ≤ a.match_score.overall_score

/-- `MatchingEngine.score_opportunities` — profile-path ranking. -/
def scoreOpportunities (settings : Settings) (opportunities : List Opportunity)
    (profile : CompanyProfile) : List ScoredOpportunity :=
  let scored := opportunities.map (fun opp =>
    let ms := computeMatch opp profile
    { opportunity := opp
      match_score := ms
      match_tier := getTier settings ms.overall_score : ScoredOpportunity })
  scored.mergeSort byOverallDesc

/-- The all-zero `MatchScore` built inline (in `matcher.py` and `scout.py`)
for the no-clusters "unscored" paths. -/
def zeroMatchScore : MatchScore :=
  { overall_score := 0, naics_score := 0, set_aside_score := 0
    agency_score := 0, geo_score := 0, semantic_score := 0 }

/-- The per-opportunity best-cluster loop body of
`MatchingEngine.score_opportunities_with_clusters`: iterate the clusters in
order, replacing the running best only on a strictly greater
`overall_score`. -/
def pickStep (opp : Opportunity) (agencyPrefs geoPrefs : List String)
    (acc : Option (MatchScore × CapabilityCluster)) (cluster : CapabilityCluster) :
    Option (MatchScore × CapabilityCluster) :=
  let score := computeClusterMatch opp cluster agencyPrefs geoPrefs
  match acc with
  | none => some (score, cluster)
  | some (bs, bc) =>
    if bs.overall_score < score.overall_score then some (score, cluster)
    else some (bs, bc)

/-- The best-cluster loop: fold `pickStep` over the clusters from
`best_score = best_cluster = None`. -/
def pickBest (opp : Opportunity) (agencyPrefs geoPrefs : List String)
    (clusters : List CapabilityCluster) :
    Option (MatchScore × CapabilityCluster) :=
  clusters.foldl (pickStep opp agencyPrefs geoPrefs) none

/-- The `ScoredOpportunity` built for one opportunity inside
`score_opportunities_with_clusters` (before the final sort). -/
def scoreOneWithClusters (settings : Settings) (opp : Opportunity)
    (clusters : List CapabilityCluster) (agencyPrefs geoPrefs : List String) :
    ScoredOpportunity :=
  match pickBest opp agencyPrefs geoPrefs clusters with
  | none =>
    -- unreachable in the source (the caller guards on `clusters` nonempty);
    -- mirrors `best_score is None` falling through with the zero record
    { opportunity := opp, match_score := zeroMatchScore, match_tier := "low" }
  | some (bs, bc) =>
    { opportunity := opp
      match_score := bs
      match_tier := getTier settings bs.overall_score
      best_cluster_id := some bc.id
      best_cluster_name := some bc.name }

/-- `MatchingEngine.score_opportunities_with_clusters` — cluster-path ranking
with best-cluster tagging; empty `clusters` yields the "unscored" records. -/
def scoreOpportunitiesWithClusters (settings : Settings)
    (opportunities : List Opportunity) (clusters : List CapabilityCluster)
    (agencyPreferences geoPreferences : List String) :
    List ScoredOpportunity :=
  if clusters.isEmpty then
    opportunities.map (fun opp =>
      { opportunity := opp
        match_score := zeroMatchScore
        match_tier := "unscored" })
  else
    let scored := opportunities.map (fun opp =>
      scoreOneWithClusters settings opp clusters agencyPreferences geoPreferences)
    scored.mergeSort byOverallDesc

/-! ### Semantic enrichment (`backend/app/services/analyzer.py`)

`OpportunityAnalyzer.enrich_with_semantic_score` returns the record unchanged
when no LLM client/capability statement is configured or the call fails; on
success it clamps the parsed score to `[0, 30]`, stores it, and recomputes
`overall_score` from the five stored sub-scores. The LLM call itself is the
external collaborator; its parsed numeric result enters as `rawScore`. -/

/-- Success path of `OpportunityAnalyzer.enrich_with_semantic_score`, given
the parsed LLM score `rawScore` (`float(result.get("score", 0))`). -/
def enrichWithSemanticScore (settings : Settings) (so : ScoredOpportunity)
    (rawScore : ℚ) : ScoredOpportunity :=
  let semantic := ratMin (ratMax rawScore 0) 30
  let ms := so.match_score
  let overall := ratMin
    (ms.naics_score + ms.set_aside_score + ms.agency_score + ms.geo_score + semantic)
    100
  { so with
    match_score := { ms with semantic_score := semantic, overall_score := overall }
    match_tier := getTier settings overall }

/-! ### Scout run coordinator (`backend/app/agents/scout.py`)

`ScoutAgent.run` loads the persisted state, fetches both adapters (failures
degrade to `[]` — the fetch itself is the external collaborator, so the
already-degraded result lists are inputs here), scores, filters by threshold
and novelty, updates the seen set and run history, and persists.

Instants (`datetime.utcnow()` values) are opaque to every branch the claims
touch, so they are modelled as `Nat`.

The update `updated_seen = list(seen_ids | set(new_ids))` materializes a
Python `set`, whose iteration order is unspecified (hash-based). The model
takes that materialization as a parameter `setToList`, constrained by
`ValidSetOrder`: it must list exactly the members of its input, without
duplicates, in some order. -/

/-- A run summary appended to `state["runs"]`. -/
structure RunRecord where
  run_at : Nat
  total_fetched : Nat
  new_count : Nat
  deriving DecidableEq

/-- The persisted Scout state (`scout_state.json`). -/
structure ScoutState where
  last_run_at : Option Nat := none
  seen_notice_ids : List String := []
  runs : List RunRecord := []
  deriving DecidableEq

/-- The caller-visible result dict of `ScoutAgent.run` (the constant
`alerts_sent = 0` and the window strings are elided). -/
structure ScoutResult where
  new_opportunities : List ScoredOpportunity
  total_fetched : Nat
  total_scored : Nat
  run_at : Nat
  deriving DecidableEq

/-- A function standing for `list(s)` on a Python `set` with the given
member list: the output lists exactly the members of the input, each once, in
an order the interpreter does not specify. -/
def ValidSetOrder (f : List String → List String) : Prop :=
  ∀ l : List String, (f l).Nodup ∧ ∀ x, x ∈ f l ↔ x ∈ l

/-- The 10,000-id cap of `ScoutAgent.run`
(`if len(updated_seen) > 10_000: updated_seen = updated_seen[-10_000:]`):
keep the last 10,000 entries of the materialized list. -/
def trimSeen (u : List String) : List String :=
  if 10000 < u.length then u.drop (u.length - 10000) else u

/-- `ScoutAgent._record_run` — set the watermark and append to the bounded
(`runs[-100:]`) history. -/
def recordRun (state : ScoutState) (run_at : Nat) (total_fetched new_count : Nat) :
    ScoutState :=
  let runs := state.runs ++ [{ run_at := run_at, total_fetched := total_fetched
                               new_count := new_count }]
  { state with last_run_at := some run_at, runs := runs.drop (runs.length - 100) }

/-- The scoring step of `ScoutAgent.run`: the cluster path when clusters are
configured, else one zero-scored "unscored" record per fetched opportunity. -/
def scoutScored (settings : Settings) (all_opportunities : List Opportunity)
    (clusters : List CapabilityCluster)
    (agencyPreferences geoPreferences : List String) : List ScoredOpportunity :=
  if !clusters.isEmpty then
    scoreOpportunitiesWithClusters settings all_opportunities clusters
      agencyPreferences geoPreferences
  else
    all_opportunities.map (fun opp =>
      { opportunity := opp, match_score := zeroMatchScore
        match_tier := "unscored" })

/-- `ScoutAgent.run`. The first component of the result is the state as
persisted on disk after the run. On the empty-fetch path the source calls
`_record_run` on the in-memory dict but returns without `_save_state`, so the
persisted state is the unchanged input state. -/
def scoutRun (setToList : List String → List String) (settings : Settings)
    (state : ScoutState) (run_at : Nat)
    (samResults subnetResults : List Opportunity)
    (clusters : List CapabilityCluster)
    (agencyPreferences geoPreferences : List String) :
    ScoutState × ScoutResult :=
  let all_opportunities := samResults ++ subnetResults
  let total_fetched := all_opportunities.length
  if all_opportunities.isEmpty then
    (state, { new_opportunities := [], total_fetched := 0, total_scored := 0
              run_at := run_at })
  else
    let seen_ids := state.seen_notice_ids
    let threshold := settings.scout_score_threshold
    let scored := scoutScored settings all_opportunities clusters
      agencyPreferences geoPreferences
    let total_scored := scored.length
    let new_opportunities := scored.filter (fun s =>
      decide (threshold ≤ s.match_score.overall_score) &&
        !(seen_ids.contains s.opportunity.notice_id))
    let new_ids := scored.map (fun s => s.opportunity.notice_id)
    let updated_seen := trimSeen (setToList (seen_ids ++ new_ids))
    let state₁ := recordRun { state with seen_notice_ids := updated_seen }
      run_at total_fetched new_opportunities.length
    (state₁, { new_opportunities := new_opportunities
               total_fetched := total_fetched, total_scored := total_scored
               run_at := run_at })

/-! ### Backfill coordinator (`backend/app/agents/backfill.py`)

Datetimes are modelled as day numbers (`Int`, days since 1970-01-01,
proleptic Gregorian): every datetime the window construction manipulates is
derived from `now` by whole-day shifts and `.replace(day=...)`, so they all
share `now`'s time of day; comparisons and `strftime("%Y-%m")` therefore
depend only on the day number. -/

/-- Civil date from a day number (proleptic Gregorian, epoch 1970-01-01);
the standard era-based conversion, with floor division. Returns
`(year, month, day)`. -/
def civilFromDays (z : Int) : Int × Int × Int :=
  let z := z + 719468
  let era := Int.fdiv z 146097
  let doe := z - era * 146097
  let yoe := Int.fdiv
    (doe - Int.fdiv doe 1460 + Int.fdiv doe 36524 - Int.fdiv doe 146096) 365
  let y := yoe + era * 400
  let doy := doe - (365 * yoe + Int.fdiv yoe 4 - Int.fdiv yoe 100)
  let mp := Int.fdiv (5 * doy + 2) 153
  let d := doy - Int.fdiv (153 * mp + 2) 5 + 1
  let m := mp + (if mp < 10 then 3 else -9)
  (y + (if m ≤ 2 then 1 else 0), m, d)

/-- Day-of-month of a day number. -/
def dayOf (z : Int) : Int := (civilFromDays z).2.2

/-- Python `dt.replace(day=1)` at day granularity. -/
def replaceDay1 (z : Int) : Int := z - (dayOf z - 1)

/-- Python `dt.strftime("%Y-%m")` (years of interest are four-digit). -/
def monthKey (z : Int) : String :=
  let c := civilFromDays z
  toString c.1 ++ "-" ++ (if c.2.1 < 10 then "0" else "") ++ toString c.2.1

/-- Python's two-argument `min` on datetimes, at day granularity. -/
def intMin (a b : Int) : Int := if a ≤ b then a else b

/-- One month window of `_do_backfill`: key, start, end. -/
structure BWindow where
  key : String
  win_start : Int
  win_end : Int
  deriving DecidableEq

/-- The window-list construction of `_do_backfill` (lines 136-145):
`month_start = (now.replace(day=1) - timedelta(days=i*30)).replace(day=1)`;
`next_month = (month_start.replace(day=28) + timedelta(days=4)).replace(day=1)`
(with `day(month_start) = 1`, `.replace(day=28) + 4 days` is `+ 31` days);
`month_end = next_month - 1 day`; window `(key, month_start,
min(month_end, now))`. -/
def buildWindows (months : Nat) (now : Int) : List BWindow :=
  (List.range months).map (fun i =>
    let month_start := replaceDay1 (replaceDay1 now - 30 * Int.ofNat i)
    let next_month := replaceDay1 (month_start + 31)
    let month_end := next_month - 1
    { key := monthKey month_start
      win_start := month_start
      win_end := intMin month_end now })

/-- Python's `<` on strings: lexicographic comparison by code point (a
proper prefix is smaller). Used for the `"YYYY-MM"` month keys, where it
coincides with chronological order. -/
def charListLt : List Char → List Char → Bool
  | _, [] => false
  | [], _ :: _ => true
  | a :: as, b :: bs =>
    decide (a.toNat < b.toNat) || (a == b && charListLt as bs)

/-- Python `a < b` on strings. -/
def strLt (a b : String) : Bool := charListLt a.data b.data

/-- The month-selection behaviour of the `_do_backfill` loop (lines 149-172)
as the list of month keys actually processed, in order. Skips keys in
`done_months`; when `resume_month` is truthy, additionally skips keys
strictly newer (Python string `>`, modelled by `strLt`) than it; a processed
key is added to `done_months` (so a duplicated window key is processed
once). Fetching and state persistence are orthogonal to the selection and
are modelled separately (`fetchMonth`). -/
def processMonths (windowKeys : List String) (done : List String)
    (resume_month : Option String) : List String :=
  match windowKeys with
  | [] => []
  | key :: rest =>
    if done.contains key then processMonths rest done resume_month
    else if !(optFalsy resume_month) && key != resume_month.getD "" &&
        !(done.contains key) && strLt (resume_month.getD "") key then
      processMonths rest done resume_month
    else key :: processMonths rest (key :: done) resume_month

/-- Upstream responses to one page request, per retry attempt:
HTTP 200 with the parsed opportunities, HTTP 429, another HTTP error status
(`raise_for_status` raises, caught as `HTTPStatusError`), or a non-HTTP
exception (timeout, connection error). -/
inductive PageResponse
  | ok (opps : List Opportunity)
  | rateLimited
  | httpError
  | netError
  deriving DecidableEq

/-- Attempt loop of `_fetch_page_with_retry`: `remaining` counts the loop
iterations left (`max_retries - attempt`), `attempt` indexes the oracle as
in `for attempt in range(max_retries)`. Retry the same page on 429 (after a
backoff sleep and a paused/running status flip, both elided); return `[]` on
an HTTP error status; on another exception return `[]` if this was the last
attempt (`remaining = 1`), else retry; `[]` after the cap. -/
def fetchPageLoop (responses : Nat → PageResponse) :
    (remaining : Nat) → (attempt : Nat) → List Opportunity
  | 0, _ => []
  | r + 1, attempt =>
    match responses attempt with
    | .ok opps => opps
    | .httpError => []
    | .rateLimited => fetchPageLoop responses r (attempt + 1)
    | .netError =>
      if r == 0 then [] else fetchPageLoop responses r (attempt + 1)

/-- `_fetch_page_with_retry` with its default retry cap (`max_retries = 3`). -/
def fetchPageWithRetry (responses : Nat → PageResponse) : List Opportunity :=
  fetchPageLoop responses 3 0

/-- Observable outcome of one month's pagination: records upserted
(`month_upserted`), non-empty pages counted into `total_pages_fetched`, and
the offsets at which a page request was issued. -/
structure MonthResult where
  month_upserted : Nat
  pages_fetched : Nat
  offsets_fetched : List Nat
  deriving DecidableEq

/-- The `while True` pagination loop of `_fetch_month` (`PAGE_SIZE = 100`),
with `fuel` bounding the number of iterations (the source loop is unbounded;
every claim concerns finite traces). `oracle offset attempt` is the upstream
response to the request for `offset` on retry `attempt`. An empty page list
— whether a genuinely empty page or the `[]` returned after a page failure —
breaks the loop; a partial page breaks after upserting. -/
def fetchMonthLoop (oracle : Nat → Nat → PageResponse) (fuel offset : Nat)
    (acc : MonthResult) : MonthResult :=
  match fuel with
  | 0 => acc
  | fuel + 1 =>
    let page := fetchPageWithRetry (oracle offset)
    let acc := { acc with offsets_fetched := acc.offsets_fetched ++ [offset] }
    if page.isEmpty then acc
    else
      let acc := { acc with
        month_upserted := acc.month_upserted + page.length
        pages_fetched := acc.pages_fetched + 1 }
      if page.length < 100 then acc
      else fetchMonthLoop oracle fuel (offset + 100) acc

/-- `_fetch_month` from offset 0. -/
def fetchMonth (oracle : Nat → Nat → PageResponse) (fuel : Nat) : MonthResult :=
  fetchMonthLoop oracle fuel 0
    { month_upserted := 0, pages_fetched := 0, offsets_fetched := [] }

/-! ### Claim-side definitions and concrete inputs

Definitions below are not translations of the source: they state claims in
the claims' own words (for refinement comparisons) or name the concrete
inputs the theorems instantiate. -/

/-- Claim C4's "shares the first `n` digits": both codes have at least `n`
characters and agree on the first `n`. -/
def sharesDigits (n : Nat) (a b : String) : Prop :=
  n ≤ a.data.length ∧ n ≤ b.data.length ∧ a.data.take n = b.data.take n

instance (n : Nat) (a b : String) : Decidable (sharesDigits n a b) := by
  unfold sharesDigits; infer_instance

/-- Claim C4's NAICS tiering exactly as stated: 30 if the opportunity code is
exactly in the list, else 20 on a shared 4-digit prefix, else 10 on a shared
2-digit prefix, else 0; absent/empty code or empty list yields 0. (No
whitespace stripping — that is the point of comparison with the source.) -/
def claimNaicsScore (oppNaics : Option String) (codes : List String) : ℚ :=
  match oppNaics with
  | none => 0
  | some s =>
    if s = "" ∨ codes = [] then 0
    else if s ∈ codes then 30
    else if ∃ c ∈ codes, sharesDigits 4 c s then 20
    else if ∃ c ∈ codes, sharesDigits 2 c s then 10
    else 0

/-- Claim C4 amended: the same tiering applied to the opportunity code with
surrounding whitespace stripped (the raw-code/empty-list guard unchanged). -/
def amendedNaicsScore (oppNaics : Option String) (codes : List String) : ℚ :=
  match oppNaics with
  | none => 0
  | some s =>
    if s = "" ∨ codes = [] then 0
    else
      let t : String := ⟨stripL s.data⟩
      if t ∈ codes then 30
      else if ∃ c ∈ codes, sharesDigits 4 c t then 20
      else if ∃ c ∈ codes, sharesDigits 2 c t then 10
      else 0

/-- Opportunity of claim C6's `[10, 25, 25]` example. -/
def exOpp : Opportunity :=
  { notice_id := "o"
    naics_code := some "541511"
    set_aside := some "total small business set-aside" }

/-- Cluster A of claim C6's example: 2-digit NAICS match only → overall 10. -/
def clA : CapabilityCluster := { id := "A", name := "A", naics_codes := ["548888"] }

/-- Cluster B of claim C6's example: 2-digit NAICS match plus generic
small-business partial credit → overall 25. -/
def clB : CapabilityCluster :=
  { id := "B", name := "B", naics_codes := ["548888"], certifications := [.HUBZONE] }

/-- Cluster C of claim C6's example: same overall 25 as B, listed after it. -/
def clC : CapabilityCluster :=
  { id := "C", name := "C", naics_codes := ["548888"], certifications := [.A8] }

/-- A notice id used by the seen-set counterexamples: `n` distinct ids of
distinct lengths. -/
def capIdString (n : Nat) : String := ⟨List.replicate n 'a'⟩

/-- A persisted seen set already at the 10,000-id cap. -/
def capSeen : List String := (List.range 10000).map capIdString

/-- An opportunity, unseen so far, scoring 30 (exact NAICS) + 20
(certification keyword) = 50 ≥ the default Scout threshold 40. -/
def newOpp : Opportunity :=
  { notice_id := "b"
    naics_code := some "541511"
    set_aside := some "small business set-aside" }

/-- The cluster giving `newOpp` its score of 50. -/
def newCluster : CapabilityCluster :=
  { id := "K", name := "K", naics_codes := ["541511"], certifications := [.SB] }

/-- The `MatchScore` the engine computes for `newOpp` against
`newCluster`. -/
def msNew : MatchScore :=
  { overall_score := 50, naics_score := 30, set_aside_score := 20
    agency_score := 0, geo_score := 0, semantic_score := 0 }

/-- The `ScoredOpportunity` the cluster path produces for `newOpp`. -/
def scoredNew : ScoredOpportunity :=
  { opportunity := newOpp, match_score := msNew, match_tier := "medium"
    best_cluster_id := some "K", best_cluster_name := some "K" }

/-- A Scout state holding exactly the 10,000 capped ids. -/
def capState : ScoutState := { seen_notice_ids := capSeen }

/-- One admissible materialization order of a Python set: members of the
input listed newest-first (reverse, then first-occurrence dedup). Python
leaves the order unspecified, so any `ValidSetOrder` is a possible
execution. -/
def badOrder (l : List String) : List String := l.reverse.dedup

/-- Day number of 2024-03-15 (days since 1970-01-01). -/
def day20240315 : Int := 19797

/-- Day number of 2024-05-15 (days since 1970-01-01). -/
def day20240515 : Int := 19858

/-- Page oracle for claim C8: the request at offset 0 always answers with a
non-429 HTTP error; every later offset holds a full page of data. -/
def errOracle : Nat → Nat → PageResponse := fun off _ =>
  if off == 0 then .httpError else .ok (List.replicate 100 newOpp)

/-- Page oracle for claim C8's rate-limit case: offset 0 answers 429 on
every attempt (so the retry cap is exhausted); every later offset holds a
full page of data. -/
def rlOracle : Nat → Nat → PageResponse := fun off _ =>
  if off == 0 then .rateLimited else .ok (List.replicate 100 newOpp)

/-! ## Theorems -/

/-! ### General helper lemmas -/

lemma ratMin_eq_min (a b : ℚ) : ratMin a b = min a b := by
  rw [ratMin, min_def]

lemma ratMax_eq_max (a b : ℚ) : ratMax a b = max a b := by
  rw [ratMax, max_def]

/-- Possible values of the NAICS sub-score. -/
lemma matchNaicsCodes_cases (o : Option String) (codes : List String) :
    matchNaicsCodes o codes = 0 ∨ matchNaicsCodes o codes = 10 ∨
      matchNaicsCodes o codes = 20 ∨ matchNaicsCodes o codes = 30 := by
  simp only [matchNaicsCodes]
  split_ifs <;> simp

/-- Possible values of the profile-path set-aside sub-score. -/
lemma scoreSetAside_cases (opp : Opportunity) (profile : CompanyProfile) :
    scoreSetAside opp profile = 0 ∨ scoreSetAside opp profile = 15 ∨
      scoreSetAside opp profile = 20 := by
  simp only [scoreSetAside]
  split_ifs <;> simp

/-- Possible values of the cluster-path certification sub-score. -/
lemma scoreClusterCertifications_cases (opp : Opportunity) (cluster : CapabilityCluster) :
    scoreClusterCertifications opp cluster = 0 ∨
      scoreClusterCertifications opp cluster = 15 ∨
      scoreClusterCertifications opp cluster = 20 := by
  simp only [scoreClusterCertifications]
  split_ifs <;> simp

/-- Possible values of the agency sub-score. -/
lemma matchAgency_cases (d : Option String) (prefs : List String) :
    matchAgency d prefs = 0 ∨ matchAgency d prefs = 10 := by
  simp only [matchAgency]
  split_ifs <;> simp

/-- Possible values of the geography sub-score. -/
lemma matchGeography_cases (p : Option String) (prefs : List String) :
    matchGeography p prefs = 0 ∨ matchGeography p prefs = 10 := by
  simp only [matchGeography]
  split_ifs <;> simp

/-- The Boolean exact-NAICS scan of the source equals list membership of the
stripped code. -/
lemma any_exact_iff (codes : List String) (t : List Char) :
    (codes.any (fun code => code.data == t) = true) ↔ (⟨t⟩ : String) ∈ codes := by
  simp only [List.any_eq_true, beq_iff_eq]
  constructor
  · rintro ⟨c, hc, he⟩
    have hct : c = ⟨t⟩ := by
      cases c with
      | mk d => exact congrArg String.mk (by simpa using he)
    rwa [← hct]
  · intro h
    exact ⟨⟨t⟩, h, rfl⟩

/-- The Boolean prefix scan of the source equals the claim's
shares-first-`n`-digits predicate. -/
lemma any_prefix_iff (n : Nat) (codes : List String) (t : List Char) :
    (codes.any (fun code =>
      n ≤ code.data.length && n ≤ t.length && code.data.take n == t.take n) = true) ↔
      ∃ c ∈ codes, sharesDigits n c ⟨t⟩ := by
  simp only [List.any_eq_true, Bool.and_eq_true, decide_eq_true_eq, beq_iff_eq, sharesDigits]
  constructor
  · rintro ⟨c, hc, ⟨h1, h2⟩, h3⟩
    exact ⟨c, hc, h1, h2, h3⟩
  · rintro ⟨c, hc, h1, h2, h3⟩
    exact ⟨c, hc, ⟨h1, h2⟩, h3⟩

/-- The Boolean emptiness guard of `_match_naics_codes` in claim terms. -/
lemma naics_guard_iff (s : String) (codes : List String) :
    ((optFalsy (some s) || codes.isEmpty) = true) ↔ (s = "" ∨ codes = []) := by
  simp [optFalsy, List.isEmpty_iff]

/-! ### Claim C4 — NAICS tier scoring (corrected: the code strips the
opportunity code before every comparison) -/

/-- Claim C4 as amended: `_match_naics_codes` computes exactly the claimed
0/10/20/30 tiering — single highest tier, absent/empty inputs give 0 — but
applied to the whitespace-stripped opportunity code. -/
theorem claim_C4 (oppNaics : Option String) (codes : List String) :
    matchNaicsCodes oppNaics codes = amendedNaicsScore oppNaics codes := by
  cases oppNaics with
  | none => simp [matchNaicsCodes, amendedNaicsScore, optFalsy]
  | some s =>
    show matchNaicsCodes (some s) codes = amendedNaicsScore (some s) codes
    simp only [matchNaicsCodes, amendedNaicsScore, Option.getD_some]
    rw [if_congr (naics_guard_iff s codes) rfl rfl]
    by_cases hg : s = "" ∨ codes = []
    · rw [if_pos hg, if_pos hg]
    rw [if_neg hg, if_neg hg]
    rw [if_congr (any_exact_iff codes (stripL s.data)) rfl rfl]
    rw [if_congr (any_prefix_iff 4 codes (stripL s.data)) rfl rfl]
    rw [if_congr (any_prefix_iff 2 codes (stripL s.data)) rfl rfl]

/-- Claim C4 counterexample: with opportunity code `" 541511"` (leading
space) and code list `["541511"]`, the code returns 30 although the
opportunity code is not exactly in the list — the claim's tiering (which
awards 30 only on exact membership) gives 0. -/
theorem claim_C4_cex :
    matchNaicsCodes (some " 541511") ["541511"] = 30 ∧
      claimNaicsScore (some " 541511") ["541511"] = 0 ∧
      (" 541511" : String) ∉ (["541511"] : List String) := by
  refine ⟨by decide, by decide, by decide⟩

/-! ### Claim C5 — overall cap and the semantic-update frame (confirmed) -/

/-- Claim C5: every engine-produced `MatchScore` satisfies
`overall = min(sum of the five sub-scores, 100)`, and the semantic
enrichment step stores the clamped semantic score, leaves the four
deterministic sub-scores (and the opportunity) unchanged, and recomputes
`overall` from the five stored sub-scores. -/
theorem claim_C5 :
    (∀ opp profile,
      (computeMatch opp profile).overall_score =
        min ((computeMatch opp profile).naics_score + (computeMatch opp profile).set_aside_score +
          (computeMatch opp profile).agency_score + (computeMatch opp profile).geo_score +
          (computeMatch opp profile).semantic_score) 100) ∧
    (∀ opp cluster a g,
      (computeClusterMatch opp cluster a g).overall_score =
        min ((computeClusterMatch opp cluster a g).naics_score +
          (computeClusterMatch opp cluster a g).set_aside_score +
          (computeClusterMatch opp cluster a g).agency_score +
          (computeClusterMatch opp cluster a g).geo_score +
          (computeClusterMatch opp cluster a g).semantic_score) 100) ∧
    (∀ settings so raw,
      (enrichWithSemanticScore settings so raw).match_score.naics_score =
          so.match_score.naics_score ∧
        (enrichWithSemanticScore settings so raw).match_score.set_aside_score =
          so.match_score.set_aside_score ∧
        (enrichWithSemanticScore settings so raw).match_score.agency_score =
          so.match_score.agency_score ∧
        (enrichWithSemanticScore settings so raw).match_score.geo_score =
          so.match_score.geo_score ∧
        (enrichWithSemanticScore settings so raw).opportunity = so.opportunity ∧
        (enrichWithSemanticScore settings so raw).match_score.semantic_score =
          min (max raw 0) 30 ∧
        (enrichWithSemanticScore settings so raw).match_score.overall_score =
          min ((enrichWithSemanticScore settings so raw).match_score.naics_score +
            (enrichWithSemanticScore settings so raw).match_score.set_aside_score +
            (enrichWithSemanticScore settings so raw).match_score.agency_score +
            (enrichWithSemanticScore settings so raw).match_score.geo_score +
            (enrichWithSemanticScore settings so raw).match_score.semantic_score) 100) := by
  refine ⟨fun opp profile => ratMin_eq_min _ _, fun opp cluster a g => ?_,
    fun settings so raw => ?_⟩
  · simp [computeClusterMatch, ratMin_eq_min]
  · refine ⟨rfl, rfl, rfl, rfl, rfl, ?_, ?_⟩
    · simp [enrichWithSemanticScore, ratMin_eq_min, ratMax_eq_max]
    · exact ratMin_eq_min _ _

/-! ### Claim C10 — implicit engine score ceiling (confirmed) -/

/-- Claim C10: inside the engine the semantic slot is 0, `overall` is the
plain (uncapped) sum of the four deterministic sub-scores, that sum never
exceeds 70 (so the `min(·, 100)` cap never binds), and with the default
thresholds the "high" tier is reached exactly when all four sub-scores are
at their maxima — on both engine paths. -/
theorem claim_C10 :
    (∀ opp profile,
      (computeMatch opp profile).semantic_score = 0 ∧
      (computeMatch opp profile).overall_score =
        (computeMatch opp profile).naics_score + (computeMatch opp profile).set_aside_score +
          (computeMatch opp profile).agency_score + (computeMatch opp profile).geo_score ∧
      (computeMatch opp profile).overall_score ≤ 70 ∧
      (getTier defaultSettings (computeMatch opp profile).overall_score = "high" ↔
        ((computeMatch opp profile).naics_score = 30 ∧
          (computeMatch opp profile).set_aside_score = 20 ∧
          (computeMatch opp profile).agency_score = 10 ∧
          (computeMatch opp profile).geo_score = 10))) ∧
    (∀ opp cluster a g,
      (computeClusterMatch opp cluster a g).semantic_score = 0 ∧
      (computeClusterMatch opp cluster a g).overall_score =
        (computeClusterMatch opp cluster a g).naics_score +
          (computeClusterMatch opp cluster a g).set_aside_score +
          (computeClusterMatch opp cluster a g).agency_score +
          (computeClusterMatch opp cluster a g).geo_score ∧
      (computeClusterMatch opp cluster a g).overall_score ≤ 70 ∧
      (getTier defaultSettings (computeClusterMatch opp cluster a g).overall_score = "high" ↔
        ((computeClusterMatch opp cluster a g).naics_score = 30 ∧
          (computeClusterMatch opp cluster a g).set_aside_score = 20 ∧
          (computeClusterMatch opp cluster a g).agency_score = 10 ∧
          (computeClusterMatch opp cluster a g).geo_score = 10))) := by
  constructor
  · intro opp profile
    have hn := matchNaicsCodes_cases opp.naics_code profile.naics_codes
    have hs := scoreSetAside_cases opp profile
    have ha := matchAgency_cases opp.department profile.agency_preferences
    have hg := matchGeography_cases opp.place_of_performance profile.geographic_preferences
    have e1 : (computeMatch opp profile).naics_score =
        matchNaicsCodes opp.naics_code profile.naics_codes := rfl
    have e2 : (computeMatch opp profile).set_aside_score = scoreSetAside opp profile := rfl
    have e3 : (computeMatch opp profile).agency_score =
        matchAgency opp.department profile.agency_preferences := rfl
    have e4 : (computeMatch opp profile).geo_score =
        matchGeography opp.place_of_performance profile.geographic_preferences := rfl
    have e5 : (computeMatch opp profile).overall_score =
        ratMin ((computeMatch opp profile).naics_score + (computeMatch opp profile).set_aside_score +
          (computeMatch opp profile).agency_score + (computeMatch opp profile).geo_score + 0) 100 := rfl
    rw [← e1] at hn; rw [← e2] at hs; rw [← e3] at ha; rw [← e4] at hg
    have bn : (computeMatch opp profile).naics_score ≤ 30 := by
      rcases hn with h | h | h | h <;> (rw [h]) <;> norm_num
    have bs : (computeMatch opp profile).set_aside_score ≤ 20 := by
      rcases hs with h | h | h <;> (rw [h]) <;> norm_num
    have ba : (computeMatch opp profile).agency_score ≤ 10 := by
      rcases ha with h | h <;> (rw [h]) <;> norm_num
    have bg : (computeMatch opp profile).geo_score ≤ 10 := by
      rcases hg with h | h <;> (rw [h]) <;> norm_num
    have e6 : (computeMatch opp profile).overall_score =
        (computeMatch opp profile).naics_score + (computeMatch opp profile).set_aside_score +
          (computeMatch opp profile).agency_score + (computeMatch opp profile).geo_score := by
      rw [e5, ratMin_eq_min, min_eq_left (by linarith)]; ring
    refine ⟨rfl, e6, by rw [e6]; linarith, ?_⟩
    rcases hn with hn | hn | hn | hn <;> rcases hs with hs | hs | hs <;>
      rcases ha with ha | ha <;> rcases hg with hg | hg <;>
      rw [e6, hn, hs, ha, hg] <;> (norm_num [getTier, defaultSettings] <;> decide)
  · intro opp cluster a g
    have hn := matchNaicsCodes_cases opp.naics_code cluster.naics_codes
    have hs := scoreClusterCertifications_cases opp cluster
    have ha := matchAgency_cases opp.department a
    have hg := matchGeography_cases opp.place_of_performance g
    have e1 : (computeClusterMatch opp cluster a g).naics_score =
        matchNaicsCodes opp.naics_code cluster.naics_codes := rfl
    have e2 : (computeClusterMatch opp cluster a g).set_aside_score =
        scoreClusterCertifications opp cluster := rfl
    have e3 : (computeClusterMatch opp cluster a g).agency_score =
        matchAgency opp.department a := rfl
    have e4 : (computeClusterMatch opp cluster a g).geo_score =
        matchGeography opp.place_of_performance g := rfl
    have e5 : (computeClusterMatch opp cluster a g).overall_score =
        ratMin ((computeClusterMatch opp cluster a g).naics_score +
          (computeClusterMatch opp cluster a g).set_aside_score +
          (computeClusterMatch opp cluster a g).agency_score +
          (computeClusterMatch opp cluster a g).geo_score) 100 := rfl
    rw [← e1] at hn; rw [← e2] at hs; rw [← e3] at ha; rw [← e4] at hg
    have bn : (computeClusterMatch opp cluster a g).naics_score ≤ 30 := by
      rcases hn with h | h | h | h <;> (rw [h]) <;> norm_num
    have bs : (computeClusterMatch opp cluster a g).set_aside_score ≤ 20 := by
      rcases hs with h | h | h <;> (rw [h]) <;> norm_num
    have ba : (computeClusterMatch opp cluster a g).agency_score ≤ 10 := by
      rcases ha with h | h <;> (rw [h]) <;> norm_num
    have bg : (computeClusterMatch opp cluster a g).geo_score ≤ 10 := by
      rcases hg with h | h <;> (rw [h]) <;> norm_num
    have e6 : (computeClusterMatch opp cluster a g).overall_score =
        (computeClusterMatch opp cluster a g).naics_score +
          (computeClusterMatch opp cluster a g).set_aside_score +
          (computeClusterMatch opp cluster a g).agency_score +
          (computeClusterMatch opp cluster a g).geo_score := by
      rw [e5, ratMin_eq_min, min_eq_left (by linarith)]
    refine ⟨rfl, e6, by rw [e6]; linarith, ?_⟩
    rcases hn with hn | hn | hn | hn <;> rcases hs with hs | hs | hs <;>
      rcases ha with ha | ha <;> rcases hg with hg | hg <;>
      rw [e6, hn, hs, ha, hg] <;> (norm_num [getTier, defaultSettings] <;> decide)

/-! ### Claim C6 — cluster best-match selection, first-wins tie-break
(confirmed) -/

lemma pickBest_go (opp : Opportunity) (a g : List String) :
    ∀ (cs : List CapabilityCluster) (bc : CapabilityCluster),
      ∃ pre ch post,
        bc :: cs = pre ++ ch :: post ∧
        List.foldl (pickStep opp a g) (some (computeClusterMatch opp bc a g, bc)) cs =
          some (computeClusterMatch opp ch a g, ch) ∧
        (∀ c ∈ pre, (computeClusterMatch opp c a g).overall_score <
          (computeClusterMatch opp ch a g).overall_score) ∧
        (∀ c ∈ bc :: cs, (computeClusterMatch opp c a g).overall_score ≤
          (computeClusterMatch opp ch a g).overall_score) := by
  intro cs
  induction cs with
  | nil =>
    intro bc
    exact ⟨[], bc, [], rfl, rfl, by simp, by simp⟩
  | cons c cs ih =>
    intro bc
    by_cases hlt : (computeClusterMatch opp bc a g).overall_score <
        (computeClusterMatch opp c a g).overall_score
    · obtain ⟨pre, ch, post, hdec, hfold, hpre, hmax⟩ := ih c
      have hstep : List.foldl (pickStep opp a g)
          (some (computeClusterMatch opp bc a g, bc)) (c :: cs) =
          List.foldl (pickStep opp a g) (some (computeClusterMatch opp c a g, c)) cs := by
        simp [pickStep, hlt]
      refine ⟨bc :: pre, ch, post, ?_, hstep.trans hfold, ?_, ?_⟩
      · simpa using congrArg (List.cons bc) hdec
      · intro x hx
        rcases List.mem_cons.mp hx with rfl | hx
        · exact lt_of_lt_of_le hlt (hmax c (List.mem_cons_self _ _))
        · exact hpre x hx
      · intro x hx
        rcases List.mem_cons.mp hx with rfl | hx
        · exact le_of_lt (lt_of_lt_of_le hlt (hmax c (List.mem_cons_self _ _)))
        · exact hmax x hx
    · obtain ⟨pre, ch, post, hdec, hfold, hpre, hmax⟩ := ih bc
      have hstep : List.foldl (pickStep opp a g)
          (some (computeClusterMatch opp bc a g, bc)) (c :: cs) =
          List.foldl (pickStep opp a g) (some (computeClusterMatch opp bc a g, bc)) cs := by
        simp [pickStep, hlt]
      cases pre with
      | nil =>
        simp only [List.nil_append] at hdec
        injection hdec with h1 h2
        refine ⟨[], ch, c :: post, ?_, hstep.trans hfold, by simp, ?_⟩
        · simp [← h1, ← h2]
        · intro x hx
          rcases List.mem_cons.mp hx with rfl | hx
          · exact hmax x (List.mem_cons_self _ _)
          rcases List.mem_cons.mp hx with rfl | hx
          · rw [← h1]
            exact not_lt.mp hlt
          · exact hmax x (List.mem_cons_of_mem _ (h2 ▸ hx))
      | cons p pre1 =>
        have hdec2 : bc = p ∧ cs = pre1 ++ ch :: post := by
          constructor
          · exact (List.cons.inj (by simpa using hdec)).1
          · exact (List.cons.inj (by simpa using hdec)).2
        obtain ⟨h1, h2⟩ := hdec2
        have hbc : (computeClusterMatch opp bc a g).overall_score <
            (computeClusterMatch opp ch a g).overall_score := by
          have := hpre p (List.mem_cons_self _ _)
          rwa [← h1] at this
        refine ⟨bc :: c :: pre1, ch, post, ?_, hstep.trans hfold, ?_, ?_⟩
        · simp [h2]
        · intro x hx
          rcases List.mem_cons.mp hx with rfl | hx
          · exact hbc
          rcases List.mem_cons.mp hx with rfl | hx
          · exact lt_of_le_of_lt (not_lt.mp hlt) hbc
          · exact hpre x (List.mem_cons_of_mem _ hx)
        · intro x hx
          rcases List.mem_cons.mp hx with rfl | hx
          · exact hmax x (List.mem_cons_self _ _)
          rcases List.mem_cons.mp hx with rfl | hx
          · exact le_of_lt (lt_of_le_of_lt (not_lt.mp hlt) hbc)
          · exact hmax x (List.mem_cons_of_mem _ (h2 ▸ hx))

lemma pickBest_spec (opp : Opportunity) (a g : List String)
    (c : CapabilityCluster) (cs : List CapabilityCluster) :
    ∃ pre ch post,
      c :: cs = pre ++ ch :: post ∧
      pickBest opp a g (c :: cs) = some (computeClusterMatch opp ch a g, ch) ∧
      (∀ x ∈ pre, (computeClusterMatch opp x a g).overall_score <
        (computeClusterMatch opp ch a g).overall_score) ∧
      (∀ x ∈ c :: cs, (computeClusterMatch opp x a g).overall_score ≤
        (computeClusterMatch opp ch a g).overall_score) := by
  have h0 : pickBest opp a g (c :: cs) =
      List.foldl (pickStep opp a g) (some (computeClusterMatch opp c a g, c)) cs := by
    simp [pickBest, pickStep]
  obtain ⟨pre, ch, post, hdec, hfold, hpre, hmax⟩ := pickBest_go opp a g cs c
  exact ⟨pre, ch, post, hdec, h0.trans hfold, hpre, hmax⟩

lemma ovA_eval : (computeClusterMatch exOpp clA [] []).overall_score = 10 := by
  have e5 : (computeClusterMatch exOpp clA [] []).overall_score =
      ratMin (matchNaicsCodes exOpp.naics_code clA.naics_codes +
        scoreClusterCertifications exOpp clA + matchAgency exOpp.department [] +
        matchGeography exOpp.place_of_performance []) 100 := rfl
  have h1 : matchNaicsCodes exOpp.naics_code clA.naics_codes = 10 := by decide
  have h2 : scoreClusterCertifications exOpp clA = 0 := by decide
  have h3 : matchAgency exOpp.department [] = 0 := by decide
  have h4 : matchGeography exOpp.place_of_performance [] = 0 := by decide
  rw [e5, h1, h2, h3, h4, ratMin_eq_min]
  norm_num

lemma ovB_eval : (computeClusterMatch exOpp clB [] []).overall_score = 25 := by
  have e5 : (computeClusterMatch exOpp clB [] []).overall_score =
      ratMin (matchNaicsCodes exOpp.naics_code clB.naics_codes +
        scoreClusterCertifications exOpp clB + matchAgency exOpp.department [] +
        matchGeography exOpp.place_of_performance []) 100 := rfl
  have h1 : matchNaicsCodes exOpp.naics_code clB.naics_codes = 10 := by decide
  have h2 : scoreClusterCertifications exOpp clB = 15 := by decide
  have h3 : matchAgency exOpp.department [] = 0 := by decide
  have h4 : matchGeography exOpp.place_of_performance [] = 0 := by decide
  rw [e5, h1, h2, h3, h4, ratMin_eq_min]
  norm_num

lemma ovC_eval : (computeClusterMatch exOpp clC [] []).overall_score = 25 := by
  have e5 : (computeClusterMatch exOpp clC [] []).overall_score =
      ratMin (matchNaicsCodes exOpp.naics_code clC.naics_codes +
        scoreClusterCertifications exOpp clC + matchAgency exOpp.department [] +
        matchGeography exOpp.place_of_performance []) 100 := rfl
  have h1 : matchNaicsCodes exOpp.naics_code clC.naics_codes = 10 := by decide
  have h2 : scoreClusterCertifications exOpp clC = 15 := by decide
  have h3 : matchAgency exOpp.department [] = 0 := by decide
  have h4 : matchGeography exOpp.place_of_performance [] = 0 := by decide
  rw [e5, h1, h2, h3, h4, ratMin_eq_min]
  norm_num

lemma exPick_eval :
    pickBest exOpp [] [] [clA, clB, clC] = some (computeClusterMatch exOpp clB [] [], clB) := by
  have hAB : (computeClusterMatch exOpp clA [] []).overall_score <
      (computeClusterMatch exOpp clB [] []).overall_score := by
    rw [ovA_eval, ovB_eval]; norm_num
  have hBC : ¬ ((computeClusterMatch exOpp clB [] []).overall_score <
      (computeClusterMatch exOpp clC [] []).overall_score) := by
    rw [ovB_eval, ovC_eval]; norm_num
  simp [pickBest, pickStep, hAB, hBC]

/-- Claim C6: with a non-empty cluster list, each result is tagged with the
id/name and score of a cluster achieving the maximum overall score whose
strict predecessors in input order all score strictly lower (first max wins
ties); every output of the cluster ranking is such a per-opportunity result;
with an empty cluster list every result is tier "unscored" with null cluster
tags; and on the claim's `[10, 25, 25]` example the tagged cluster is B. -/
theorem claim_C6 :
    (∀ settings opp clusters a g, clusters ≠ [] →
      ∃ pre best post,
        clusters = pre ++ best :: post ∧
        (scoreOneWithClusters settings opp clusters a g).best_cluster_id = some best.id ∧
        (scoreOneWithClusters settings opp clusters a g).best_cluster_name = some best.name ∧
        (scoreOneWithClusters settings opp clusters a g).match_score =
          computeClusterMatch opp best a g ∧
        (∀ c ∈ pre, (computeClusterMatch opp c a g).overall_score <
          (computeClusterMatch opp best a g).overall_score) ∧
        (∀ c ∈ clusters, (computeClusterMatch opp c a g).overall_score ≤
          (computeClusterMatch opp best a g).overall_score)) ∧
    (∀ settings opps clusters a g, clusters ≠ [] →
      ∀ r ∈ scoreOpportunitiesWithClusters settings opps clusters a g,
        ∃ opp ∈ opps, r = scoreOneWithClusters settings opp clusters a g) ∧
    (∀ settings (opps : List Opportunity) (a g : List String),
      ∀ r ∈ scoreOpportunitiesWithClusters settings opps [] a g,
        r.match_tier = "unscored" ∧ r.best_cluster_id = none ∧ r.best_cluster_name = none) ∧
    ((scoreOneWithClusters defaultSettings exOpp [clA, clB, clC] [] []).best_cluster_id =
        some "B" ∧
      (computeClusterMatch exOpp clA [] []).overall_score = 10 ∧
      (computeClusterMatch exOpp clB [] []).overall_score = 25 ∧
      (computeClusterMatch exOpp clC [] []).overall_score = 25) := by
  refine ⟨?_, ?_, ?_, ?_⟩
  · intro settings opp clusters a g hne
    match clusters, hne with
    | c :: cs, _ =>
      obtain ⟨pre, ch, post, hdec, hpick, hpre, hmax⟩ := pickBest_spec opp a g c cs
      refine ⟨pre, ch, post, hdec, ?_, ?_, ?_, hpre, hmax⟩ <;>
        simp [scoreOneWithClusters, hpick]
  · intro settings opps clusters a g hne r hr
    have hempty : clusters.isEmpty = false := by
      simp [List.isEmpty_iff, hne]
    rw [scoreOpportunitiesWithClusters, hempty] at hr
    simp only [Bool.false_eq_true, if_false] at hr
    have hr2 := (List.mergeSort_perm _ byOverallDesc).mem_iff.mp hr
    obtain ⟨opp, hopp, rfl⟩ := List.mem_map.mp hr2
    exact ⟨opp, hopp, rfl⟩
  · intro settings opps a g r hr
    rw [scoreOpportunitiesWithClusters] at hr
    simp only [List.isEmpty_nil, if_true] at hr
    obtain ⟨opp, hopp, rfl⟩ := List.mem_map.mp hr
    exact ⟨rfl, rfl, rfl⟩
  · refine ⟨?_, ovA_eval, ovB_eval, ovC_eval⟩
    show (scoreOneWithClusters defaultSettings exOpp [clA, clB, clC] [] []).best_cluster_id =
      some "B"
    rw [scoreOneWithClusters, exPick_eval]
    rfl

/-! ### Claim C7 — backfill resume month selection (confirmed) -/

lemma charListLt_irrefl : ∀ l : List Char, charListLt l l = false := by
  intro l
  induction l with
  | nil => rfl
  | cons c cs ih => simp [charListLt, ih]

lemma strLt_irrefl (s : String) : strLt s s = false := charListLt_irrefl s.data

lemma charListLt_trichotomy : ∀ a b : List Char,
    charListLt a b = true ∨ a = b ∨ charListLt b a = true := by
  intro a
  induction a with
  | nil =>
    intro b
    cases b with
    | nil => simp
    | cons y ys => left; rfl
  | cons x xs ih =>
    intro b
    cases b with
    | nil => right; right; rfl
    | cons y ys =>
      rcases Nat.lt_trichotomy x.toNat y.toNat with h | h | h
      · left; simp [charListLt, h]
      · have hxy : x = y := Char.eq_of_val_eq (UInt32.ext h)
        subst hxy
        rcases ih ys with h2 | h2 | h2
        · left; simp [charListLt, h2]
        · right; left; rw [h2]
        · right; right; simp [charListLt, h2]
      · right; right; simp [charListLt, h]

lemma strLt_trichotomy (a b : String) :
    strLt a b = true ∨ a = b ∨ strLt b a = true := by
  rcases charListLt_trichotomy a.data b.data with h | h | h
  · exact Or.inl h
  · refine Or.inr (Or.inl ?_)
    cases a; cases b; exact congrArg String.mk h
  · exact Or.inr (Or.inr h)

lemma contains_iff_mem (d : List String) (a : String) :
    (d.contains a = true) ↔ a ∈ d := List.elem_iff

lemma processMonths_mem (rm : String) (hrm : rm ≠ "") :
    ∀ (keys done : List String) (k : String),
      k ∈ processMonths keys done (some rm) ↔
        (k ∈ keys ∧ k ∉ done ∧ strLt rm k = false) := by
  intro keys
  induction keys with
  | nil => intro done k; simp [processMonths]
  | cons key rest ih =>
    intro done k
    by_cases hd : key ∈ done
    · have hc : done.contains key = true := (contains_iff_mem done key).mpr hd
      rw [processMonths, if_pos hc, ih]
      constructor
      · rintro ⟨hk, hnd, hle⟩
        exact ⟨List.mem_cons_of_mem _ hk, hnd, hle⟩
      · rintro ⟨hk, hnd, hle⟩
        rcases List.mem_cons.mp hk with rfl | hk
        · exact absurd hd hnd
        · exact ⟨hk, hnd, hle⟩
    · have hc : done.contains key = false :=
        Bool.eq_false_iff.mpr (fun hcc => hd ((contains_iff_mem done key).mp hcc))
      have hrm2 : optFalsy (some rm) = false := by
        simp [optFalsy, hrm]
      by_cases hskip : key ≠ rm ∧ strLt rm key = true
      · have hcond : (!(optFalsy (some rm)) && key != (some rm).getD "" &&
            !(done.contains key) && strLt ((some rm).getD "") key) = true := by
          simp [hrm2, hc, hskip.1, hskip.2, hd]
        rw [processMonths, if_neg (by simp [hd]), if_pos hcond, ih]
        constructor
        · rintro ⟨hk, hnd, hle⟩
          exact ⟨List.mem_cons_of_mem _ hk, hnd, hle⟩
        · rintro ⟨hk, hnd, hle⟩
          rcases List.mem_cons.mp hk with rfl | hk
          · rw [hskip.2] at hle; cases hle
          · exact ⟨hk, hnd, hle⟩
      · have hkey_le : strLt rm key = false := by
          rcases not_and_or.mp hskip with h | h
          · simp only [not_not] at h
            subst h
            exact strLt_irrefl key
          · simpa using h
        have hcond : (!(optFalsy (some rm)) && key != (some rm).getD "" &&
            !(done.contains key) && strLt ((some rm).getD "") key) = false := by
          simp [hkey_le]
        rw [processMonths, if_neg (by simp [hd]), if_neg (by rw [hcond]; simp)]
        by_cases hkk : k = key
        · subst hkk
          constructor
          · intro _
            exact ⟨List.mem_cons_self _ _, hd, hkey_le⟩
          · intro _
            exact List.mem_cons_self _ _
        · constructor
          · intro h
            rcases List.mem_cons.mp h with rfl | h
            · exact absurd rfl hkk
            · obtain ⟨hk, hnd, hle⟩ := (ih (key :: done) k).mp h
              refine ⟨List.mem_cons_of_mem _ hk,
                fun hmem => hnd (List.mem_cons_of_mem _ hmem), hle⟩
          · rintro ⟨hk, hnd, hle⟩
            rcases List.mem_cons.mp hk with rfl | hk
            · exact absurd rfl hkk
            · refine List.mem_cons_of_mem _ ((ih (key :: done) k).mpr ⟨hk, ?_, hle⟩)
              intro hmem
              rcases List.mem_cons.mp hmem with rfl | hmem
              · exact hkk rfl
              · exact hnd hmem

/-- Sanity anchors for the day-number date model: the epoch, the 2024 leap
day, the day after it, and the day before the epoch. -/
lemma civilFromDays_checks :
    civilFromDays 0 = (1970, 1, 1) ∧ civilFromDays 19782 = (2024, 2, 29) ∧
      civilFromDays 19783 = (2024, 3, 1) ∧ civilFromDays (-1) = (1969, 12, 31) := by
  decide

/-- Claim C7: with a truthy persisted `resume_month`, the months processed
are exactly the window keys that are neither already in `months_done` nor
strictly newer than `resume_month` (`strLt` is a total strict order, so "not
newer" is "equal or older"); concretely, with three windows built in May
2024, `months_done = {"2024-05"}` and `resume_month = "2024-04"`, the run
processes exactly "2024-04" then "2024-03". -/
theorem claim_C7 :
    (∀ (keys done : List String) (rm k : String), rm ≠ "" →
      (k ∈ processMonths keys done (some rm) ↔
        (k ∈ keys ∧ k ∉ done ∧ strLt rm k = false))) ∧
    (∀ a b : String, strLt a b = true ∨ a = b ∨ strLt b a = true) ∧
    (buildWindows 3 day20240515).map BWindow.key = ["2024-05", "2024-04", "2024-03"] ∧
    processMonths ((buildWindows 3 day20240515).map BWindow.key) ["2024-05"] (some "2024-04") =
      ["2024-04", "2024-03"] := by
  refine ⟨fun keys done rm k hrm => processMonths_mem rm hrm keys done k,
    strLt_trichotomy, by decide, by decide⟩

/-! ### Claim C9 — calendar-month window construction (code bug: the
30-day stride skips and duplicates calendar months) -/

/-- Claim C9 failing run: with `now` = 2024-03-15 and `months = 3`, the
window keys are `["2024-03", "2024-01", "2024-01"]` — February 2024 is
skipped and January 2024 duplicated (the second and third windows are
identical, 2024-01-01 to 2024-01-31, day numbers 19723 to 19753) — because
the construction steps back `i * 30` days from the first of the current
month instead of `i` calendar months. -/
theorem claim_C9_code_bug :
    civilFromDays day20240315 = (2024, 3, 15) ∧
      (buildWindows 3 day20240315).map BWindow.key = ["2024-03", "2024-01", "2024-01"] ∧
      "2024-02" ∉ (buildWindows 3 day20240315).map BWindow.key ∧
      (buildWindows 3 day20240315).map (fun w => (w.key, w.win_start, w.win_end)) =
        [("2024-03", 19783, 19797), ("2024-01", 19723, 19753), ("2024-01", 19723, 19753)] := by
  refine ⟨by decide, by decide, by decide, by decide⟩

/-! ### Claim C8 — page-local error containment (code bug: a failed page
ends the whole month's pagination) -/

/-- Claim C8 failing run: when the page at offset 0 fails with a non-429
HTTP error (`errOracle`), `_fetch_page_with_retry` returns `[]`, which
`_fetch_month` cannot distinguish from an empty page: the month's pagination
stops after that single request (`offsets_fetched = [0]`, nothing upserted)
even though offset 100 holds a full page. The same happens when the
rate-limit retry cap is exhausted (`rlOracle`). For contrast, with healthy
full pages the loop does advance through consecutive offsets. -/
theorem claim_C8_code_bug :
    fetchMonth errOracle 10 =
        { month_upserted := 0, pages_fetched := 0, offsets_fetched := [0] } ∧
      errOracle 100 0 = .ok (List.replicate 100 newOpp) ∧
      (List.replicate 100 newOpp).length = 100 ∧
      fetchMonth rlOracle 10 =
        { month_upserted := 0, pages_fetched := 0, offsets_fetched := [0] } ∧
      fetchMonth (fun _ _ => .ok (List.replicate 100 newOpp)) 3 =
        { month_upserted := 300, pages_fetched := 3, offsets_fetched := [0, 100, 200] } := by
  refine ⟨by decide, by decide, by decide, by decide, by decide⟩

/-! ### Claims C1-C3 — the Scout coordinator -/

lemma trimSeen_length_le (u : List String) : (trimSeen u).length ≤ 10000 := by
  rw [trimSeen]
  split_ifs with h
  · rw [List.length_drop]
    omega
  · omega

lemma trimSeen_of_le (u : List String) (h : u.length ≤ 10000) : trimSeen u = u := by
  rw [trimSeen, if_neg (by omega)]

lemma scoutRun_empty (setToList : List String → List String) (settings : Settings)
    (state : ScoutState) (t : Nat) (clusters : List CapabilityCluster)
    (a g : List String) :
    scoutRun setToList settings state t [] [] clusters a g =
      (state, { new_opportunities := [], total_fetched := 0, total_scored := 0
                run_at := t }) := rfl

lemma scoutRun_nonempty (setToList : List String → List String) (settings : Settings)
    (state : ScoutState) (t : Nat) (sam subnet : List Opportunity)
    (clusters : List CapabilityCluster) (a g : List String)
    (hne : (sam ++ subnet) ≠ []) :
    scoutRun setToList settings state t sam subnet clusters a g =
      (recordRun
        { state with seen_notice_ids := trimSeen (setToList (state.seen_notice_ids ++
            (scoutScored settings (sam ++ subnet) clusters a g).map
              (fun s => s.opportunity.notice_id))) }
        t (sam ++ subnet).length
        ((scoutScored settings (sam ++ subnet) clusters a g).filter
          (fun s => decide (settings.scout_score_threshold ≤ s.match_score.overall_score) &&
            !(state.seen_notice_ids.contains s.opportunity.notice_id))).length,
       { new_opportunities := (scoutScored settings (sam ++ subnet) clusters a g).filter
          (fun s => decide (settings.scout_score_threshold ≤ s.match_score.overall_score) &&
            !(state.seen_notice_ids.contains s.opportunity.notice_id))
         total_fetched := (sam ++ subnet).length
         total_scored := (scoutScored settings (sam ++ subnet) clusters a g).length
         run_at := t }) := by
  rw [scoutRun, if_neg (by simp [List.isEmpty_iff, hne])]

/-- Any admissible set materialization has the union's cardinality. -/
lemma valid_length (f : List String → List String) (h : ValidSetOrder f) (l : List String) :
    (f l).length = l.dedup.length := by
  have h1 := (h l).1
  have h2 := (h l).2
  have e1 : (f l).toFinset = l.toFinset := by
    ext x
    simp [List.mem_toFinset, h2 x]
  calc (f l).length = (f l).dedup.length := by rw [List.dedup_eq_self.mpr h1]
    _ = (f l).toFinset.card := (List.card_toFinset _).symm
    _ = l.toFinset.card := by rw [e1]
    _ = l.dedup.length := List.card_toFinset _

/-- Claim C1 amended: provided the union of the prior seen set and this
run's scored ids holds at most 10,000 distinct ids (so the cap does not
trim), a second run on the same upstream data yields an empty
`new_opportunities` list; after the first run every scored id is in the
persisted seen set; and `new_opportunities` is exactly the scored results at
or above the threshold whose id is not in the prior seen set. Quantified
over every admissible materialization order of the Python set union. -/
theorem claim_C1 (setToList : List String → List String) (hvalid : ValidSetOrder setToList)
    (settings : Settings) (state : ScoutState) (t : Nat)
    (sam subnet : List Opportunity) (clusters : List CapabilityCluster)
    (a g : List String)
    (hne : (sam ++ subnet) ≠ [])
    (hsize : (state.seen_notice_ids ++
      (scoutScored settings (sam ++ subnet) clusters a g).map
        (fun s => s.opportunity.notice_id)).dedup.length ≤ 10000) :
    (scoutRun setToList settings
        (scoutRun setToList settings state t sam subnet clusters a g).1
        t sam subnet clusters a g).2.new_opportunities = [] ∧
    (∀ s ∈ scoutScored settings (sam ++ subnet) clusters a g,
      s.opportunity.notice_id ∈
        (scoutRun setToList settings state t sam subnet clusters a g).1.seen_notice_ids) ∧
    (scoutRun setToList settings state t sam subnet clusters a g).2.new_opportunities =
      (scoutScored settings (sam ++ subnet) clusters a g).filter
        (fun s => decide (settings.scout_score_threshold ≤ s.match_score.overall_score) &&
          !(state.seen_notice_ids.contains s.opportunity.notice_id)) := by
  set scored := scoutScored settings (sam ++ subnet) clusters a g with hscored
  set ids := scored.map (fun s => s.opportunity.notice_id) with hids
  have hulen : (setToList (state.seen_notice_ids ++ ids)).length ≤ 10000 := by
    rw [valid_length setToList hvalid]
    exact hsize
  have htrim : trimSeen (setToList (state.seen_notice_ids ++ ids)) =
      setToList (state.seen_notice_ids ++ ids) := trimSeen_of_le _ hulen
  have hstate1 : (scoutRun setToList settings state t sam subnet clusters a g).1.seen_notice_ids =
      setToList (state.seen_notice_ids ++ ids) := by
    rw [scoutRun_nonempty setToList settings state t sam subnet clusters a g hne]
    simp [recordRun, htrim]
  have hmem : ∀ s ∈ scored, s.opportunity.notice_id ∈
      (scoutRun setToList settings state t sam subnet clusters a g).1.seen_notice_ids := by
    intro s hs
    rw [hstate1]
    refine ((hvalid _).2 _).mpr ?_
    refine List.mem_append.mpr (Or.inr ?_)
    exact List.mem_map.mpr ⟨s, hs, rfl⟩
  refine ⟨?_, hmem, ?_⟩
  · rw [scoutRun_nonempty setToList settings
      (scoutRun setToList settings state t sam subnet clusters a g).1 t sam subnet clusters a g hne]
    simp only []
    rw [List.filter_eq_nil_iff]
    intro s hs
    rw [← hscored] at hs
    have hcont : ((scoutRun setToList settings state t sam subnet clusters a g).1.seen_notice_ids.contains
        s.opportunity.notice_id) = true := (contains_iff_mem _ _).mpr (hmem s hs)
    rw [hcont]
    simp
  · rw [scoutRun_nonempty setToList settings state t sam subnet clusters a g hne]

/-- Claim C2 amended: after every run with a non-empty fetched set the
persisted seen list holds at most 10,000 ids (the cap always holds), and an
empty-fetch run leaves the persisted state unchanged. Which ids survive the
trim depends on the unspecified iteration order of the Python set union, so
"the most recently seen ids are retained" is not guaranteed
(`claim_C2_cex`). -/
theorem claim_C2 (setToList : List String → List String) (settings : Settings)
    (state : ScoutState) (t : Nat) (sam subnet : List Opportunity)
    (clusters : List CapabilityCluster) (a g : List String) :
    ((sam ++ subnet) ≠ [] →
      (scoutRun setToList settings state t sam subnet clusters a g).1.seen_notice_ids.length ≤
        10000) ∧
    ((sam ++ subnet) = [] →
      (scoutRun setToList settings state t sam subnet clusters a g).1 = state) := by
  constructor
  · intro hne
    rw [scoutRun_nonempty setToList settings state t sam subnet clusters a g hne]
    simp only [recordRun]
    exact trimSeen_length_le _
  · intro hemp
    rw [scoutRun, if_pos (by simp [hemp])]

/-! ### Claim C3 — watermark advance on every run (code bug: the
empty-fetch path never persists) -/

/-- Claim C3 failing run: with an empty combined fetched set, `ScoutAgent.run`
returns before `_save_state`, so the persisted state is exactly the input
state — concretely, a run at time 6 over a state with `last_run_at = 5`
leaves the persisted `last_run_at` at 5 and appends no run summary. In
contrast, every run with a non-empty fetched set persists
`last_run_at = run_at` (last conjunct), so the omission is specific to the
early return. -/
theorem claim_C3_code_bug :
    (∀ (setToList : List String → List String) (settings : Settings) (state : ScoutState)
      (t : Nat) (clusters : List CapabilityCluster) (a g : List String),
      scoutRun setToList settings state t [] [] clusters a g =
        (state, { new_opportunities := [], total_fetched := 0, total_scored := 0
                  run_at := t })) ∧
    (scoutRun List.dedup defaultSettings
        { last_run_at := some 5, seen_notice_ids := [], runs := [] } 6 [] [] [] [] []).1.last_run_at =
      some 5 ∧
    (5 : Nat) ≠ 6 ∧
    (scoutRun List.dedup defaultSettings
        { last_run_at := some 5, seen_notice_ids := [], runs := [] } 6 [] [] [] [] []).1.runs = [] ∧
    (∀ (setToList : List String → List String) (settings : Settings) (state : ScoutState)
      (t : Nat) (sam subnet : List Opportunity) (clusters : List CapabilityCluster)
      (a g : List String), (sam ++ subnet) ≠ [] →
      (scoutRun setToList settings state t sam subnet clusters a g).1.last_run_at = some t) := by
  refine ⟨fun setToList settings state t clusters a g =>
    scoutRun_empty setToList settings state t clusters a g, rfl, by decide, rfl, ?_⟩
  intro setToList settings state t sam subnet clusters a g hne
  rw [scoutRun_nonempty setToList settings state t sam subnet clusters a g hne]
  simp [recordRun]

/-- `list(s)` orders that a Python interpreter may produce: plain
first-occurrence order. -/
lemma dedup_valid : ValidSetOrder List.dedup :=
  fun l => ⟨l.nodup_dedup, fun _ => List.mem_dedup⟩

/-- `badOrder` (newest-first) is also an admissible set order. -/
lemma badOrder_valid : ValidSetOrder badOrder := by
  intro l
  refine ⟨List.nodup_dedup _, fun s => ?_⟩
  simp only [badOrder, List.mem_dedup, List.mem_reverse]

lemma capIdString_inj : Function.Injective capIdString := by
  intro m n h
  have h2 : (List.replicate m 'a').length = (List.replicate n 'a').length :=
    congrArg (fun s : String => s.data.length) h
  simpa using h2

lemma capSeen_nodup : capSeen.Nodup :=
  List.Nodup.map capIdString_inj (List.nodup_range 10000)

lemma capSeen_length : capSeen.length = 10000 := by
  simp [capSeen]

lemma b_not_mem_capSeen : "b" ∉ capSeen := by
  intro h
  obtain ⟨n, _, hn⟩ := List.mem_map.mp h
  have hd : List.replicate n 'a' = ['b'] := congrArg String.data hn
  cases n with
  | zero => simp at hd
  | succ m =>
    rw [List.replicate_succ] at hd
    have : 'a' = 'b' := (List.cons.inj hd).1
    exact absurd this (by decide)

/-- Engine evaluation: `newOpp` scores 30 (exact NAICS) + 20 (certification
keyword) = 50 against `newCluster`. -/
lemma computeClusterMatch_newOpp : computeClusterMatch newOpp newCluster [] [] = msNew := by
  have h1 : matchNaicsCodes newOpp.naics_code newCluster.naics_codes = 30 := by decide
  have h2 : scoreClusterCertifications newOpp newCluster = 20 := by decide
  have h3 : matchAgency newOpp.department [] = 0 := by decide
  have h4 : matchGeography newOpp.place_of_performance [] = 0 := by decide
  simp only [computeClusterMatch, h1, h2, h3, h4, msNew, MatchScore.mk.injEq]
  refine ⟨?_, trivial, trivial, trivial, trivial, trivial⟩
  rw [ratMin_eq_min]
  norm_num

lemma scoreOne_newOpp :
    scoreOneWithClusters defaultSettings newOpp [newCluster] [] [] = scoredNew := by
  have hp : pickBest newOpp [] [] [newCluster] =
      some (msNew, newCluster) := by
    simp [pickBest, pickStep, computeClusterMatch_newOpp]
  rw [scoreOneWithClusters, hp]
  have ht : getTier defaultSettings msNew.overall_score = "medium" := by
    norm_num [getTier, defaultSettings, msNew]
  simp [scoredNew, ht, newCluster]

lemma scoutScored_single :
    scoutScored defaultSettings ([newOpp] ++ []) [newCluster] [] [] = [scoredNew] := by
  rw [scoutScored, if_pos (by simp)]
  rw [show ([newOpp] ++ [] : List Opportunity) = [newOpp] by simp]
  rw [scoreOpportunitiesWithClusters, if_neg (by simp)]
  simp [scoreOne_newOpp]

lemma badOrder_eval : badOrder (capSeen ++ ["b"]) = "b" :: capSeen.reverse := by
  rw [badOrder, List.reverse_append]
  simp only [List.reverse_cons, List.reverse_nil, List.nil_append, List.singleton_append]
  rw [List.dedup_eq_self.mpr]
  exact List.nodup_cons.mpr ⟨by simp [b_not_mem_capSeen], List.nodup_reverse.mpr capSeen_nodup⟩

lemma filter_scoredNew_capSeen :
    ([scoredNew].filter (fun s =>
      decide (defaultSettings.scout_score_threshold ≤ s.match_score.overall_score) &&
        !(capState.seen_notice_ids.contains s.opportunity.notice_id))) = [scoredNew] := by
  have hdec : decide ("b" ∈ capSeen) = false := decide_eq_false b_not_mem_capSeen
  have hth : decide ((40 : ℚ) ≤ 50) = true := by decide
  simp [List.filter, scoredNew, msNew, newOpp, defaultSettings, capState, hdec, hth]

lemma run1_state :
    (scoutRun badOrder defaultSettings capState 0 [newOpp] [] [newCluster] [] []).1 =
      { last_run_at := some 0, seen_notice_ids := capSeen.reverse
        runs := [{ run_at := 0, total_fetched := 1, new_count := 1 }] } := by
  rw [scoutRun_nonempty _ _ _ _ _ _ _ _ _ (by simp), scoutScored_single]
  have htrim : trimSeen (badOrder (capState.seen_notice_ids ++
      ([scoredNew].map (fun s => s.opportunity.notice_id)))) = capSeen.reverse := by
    have h1 : capState.seen_notice_ids = capSeen := by simp [capState]
    have h2 : ([scoredNew].map (fun s => s.opportunity.notice_id)) = ["b"] := by
      simp [scoredNew, newOpp]
    rw [h1, h2, badOrder_eval, trimSeen]
    rw [if_pos (by simp [capSeen_length])]
    simp [capSeen_length]
  rw [htrim, filter_scoredNew_capSeen]
  simp [recordRun, capState]

lemma run1_seen :
    (scoutRun badOrder defaultSettings capState 0 [newOpp] [] [newCluster] [] []).1.seen_notice_ids =
      capSeen.reverse :=
  (congrArg ScoutState.seen_notice_ids run1_state).trans (by simp)

/-- Claim C1 counterexample: from a state already holding 10,000 seen ids,
a run fetching one new opportunity (id "b", scoring 50 ≥ 40) trims the
10,001-element set union under an admissible materialization order that
lists "b" first, dropping "b"; the second run with the same upstream data
then re-surfaces it: `new_opportunities` is `[scoredNew]`, not `[]`, and
"b" — though scored in run one — is missing from the persisted seen set. -/
theorem claim_C1_cex :
    (scoutRun badOrder defaultSettings
        (scoutRun badOrder defaultSettings capState 0 [newOpp] [] [newCluster] [] []).1
        0 [newOpp] [] [newCluster] [] []).2.new_opportunities = [scoredNew] ∧
    [scoredNew] ≠ ([] : List ScoredOpportunity) ∧
    ([newOpp] ++ [] : List Opportunity) ≠ [] ∧
    scoredNew.opportunity.notice_id ∈
      (scoutScored defaultSettings ([newOpp] ++ []) [newCluster] [] []).map
        (fun s => s.opportunity.notice_id) ∧
    scoredNew.opportunity.notice_id ∉
      (scoutRun badOrder defaultSettings capState 0 [newOpp] [] [newCluster] [] []).1.seen_notice_ids ∧
    ValidSetOrder badOrder := by
  have hrun2 : (scoutRun badOrder defaultSettings
      (scoutRun badOrder defaultSettings capState 0 [newOpp] [] [newCluster] [] []).1
      0 [newOpp] [] [newCluster] [] []).2.new_opportunities = [scoredNew] := by
    rw [run1_state]
    rw [scoutRun_nonempty _ _ _ _ _ _ _ _ _ (by simp), scoutScored_single]
    have hdec : decide ("b" ∈ capSeen.reverse) = false :=
      decide_eq_false (by rw [List.mem_reverse]; exact b_not_mem_capSeen)
    have hdec0 : decide ("b" ∈ capSeen) = false := decide_eq_false b_not_mem_capSeen
    have hth : decide ((40 : ℚ) ≤ 50) = true := by decide
    simp [List.filter, scoredNew, msNew, newOpp, defaultSettings, hdec, hdec0, hth]
  refine ⟨hrun2, by simp, by simp, ?_, ?_, badOrder_valid⟩
  · rw [scoutScored_single]
    exact List.mem_map.mpr ⟨scoredNew, List.mem_singleton.mpr rfl, rfl⟩
  · rw [run1_seen, List.mem_reverse]
    exact b_not_mem_capSeen

/-- Claim C2 counterexample: in the same capped run, the retained 10,000 ids
are exactly the 10,000 *old* ones (reversed), while the one id actually seen
in this run ("b") is dropped — the retained ids are not the most recently
seen. -/
theorem claim_C2_cex :
    (scoutRun badOrder defaultSettings capState 0 [newOpp] [] [newCluster] [] []).1.seen_notice_ids =
      capSeen.reverse ∧
    "b" ∈ (scoutScored defaultSettings ([newOpp] ++ []) [newCluster] [] []).map
      (fun s => s.opportunity.notice_id) ∧
    "b" ∉ capSeen.reverse ∧
    capSeen.reverse.length = 10000 ∧
    (∀ x ∈ capSeen, x ∈ capSeen.reverse) ∧
    ValidSetOrder badOrder := by
  refine ⟨run1_seen, ?_, ?_, ?_, ?_, badOrder_valid⟩
  · rw [scoutScored_single]
    exact List.mem_map.mpr ⟨scoredNew, List.mem_singleton.mpr rfl, rfl⟩
  · rw [List.mem_reverse]
    exact b_not_mem_capSeen
  · simp [capSeen_length]
  · intro x hx
    rwa [List.mem_reverse]

/-- Claim C1 witness: a concrete small run (empty prior state, one fetched
opportunity) satisfies the amended claim's hypotheses and yields an empty
second-run `new_opportunities`. -/
theorem claim_C1_witness :
    (scoutRun List.dedup defaultSettings
        (scoutRun List.dedup defaultSettings {} 0 [newOpp] [] [newCluster] [] []).1
        0 [newOpp] [] [newCluster] [] []).2.new_opportunities = [] :=
  (claim_C1 List.dedup dedup_valid defaultSettings {} 0 [newOpp] [] [newCluster] [] []
    (by simp)
    (by rw [show (({} : ScoutState).seen_notice_ids ++
        ((scoutScored defaultSettings ([newOpp] ++ []) [newCluster] [] []).map
          (fun s => s.opportunity.notice_id))) =
        ["b"] by rw [scoutScored_single]; rfl]
        decide)).1

end GovAI
